import Mathlib

/-!
Shallow embedding of the hhnk_research_tools repository, covering
`gis/interactive_map.py` (`create_interactive_map`),
`threedi/geometry_functions.py` (`line_geometries_to_coords`) and
`logger.py` (`get_logconfig_dict`), together with theorems settling the
specification claims about them.

Numeric attribute values are embedded as rationals; a missing value
(pandas `NaN`) is `Option.none`.
-/

namespace HHNK

/-- A cell of a GeoDataFrame: a geometry (tracked by an opaque tag),
a numeric value (`num none` is `NaN`, i.e. missing), or a string. -/
inductive Cell where
  | geom (g : Nat)
  | num (q : Option ℚ)
  | str (s : String)
deriving DecidableEq, Repr

/-- One record: attribute name to cell, in column order. -/
abbrev Row := List (String × Cell)

/-- A pandas GeoDataFrame: a column list and the records. -/
structure GeoDataFrame where
  columns : List String
  rows : List Row
deriving DecidableEq, Repr

/-- Read the cell of column `c` in a row (missing cells behave as `NaN`). -/
def getCell (row : Row) (c : String) : Cell :=
  (row.lookup c).getD (.num none)

/-- Which cells pandas `dropna` treats as missing. -/
def isNA : Cell → Bool
  | .num none => true
  | _ => false

/-- Errors of the map pipeline. `attributeError` and `keyError` are the
failures the embedded code can actually raise (reflective colormap lookup,
missing column); `configurationError` and `emptyDatasetError` name the
error classes of the documentation so that their occurrence or absence can
be stated. -/
inductive MapError where
  | attributeError (name : String)
  | keyError (name : String)
  | configurationError (msg : String)
  | emptyDatasetError
deriving DecidableEq, Repr

/-- The cleaned frame: the rows whose `c` value is missing are removed. -/
def cleanedOf (c : String) (df : GeoDataFrame) : GeoDataFrame :=
  { df with rows := df.rows.filter (fun r => !(isNA (getCell r c))) }

/-- `gdf.dropna(subset=[c], inplace=True)`: removes the rows whose `c` cell
is missing; raises `KeyError` if `c` is not a column (and then mutates
nothing). -/
def dropnaSubset (c : String) (df : GeoDataFrame) : Except MapError GeoDataFrame :=
  if df.columns.contains c then
    .ok (cleanedOf c df)
  else
    .error (.keyError c)

/-- Round a rational to 2 decimal places (half-way cases round up; no
result below depends on a half-way case). -/
def round2 (q : ℚ) : ℚ :=
  ((round (q * 100) : ℤ) : ℚ) / 100

/-- `gdf.round(2)` on one cell: numeric values are rounded, geometries and
strings are untouched. -/
def roundCell : Cell → Cell
  | .num (some q) => .num (some (round2 q))
  | c => c

/-- `gdf.round(2)`: a fresh dataframe with every numeric value rounded. -/
def roundDf (df : GeoDataFrame) : GeoDataFrame :=
  { df with rows := df.rows.map (fun r => r.map (fun kc => (kc.1, roundCell kc.2))) }

/-- The present (non-`NaN`) numeric values of column `c`, in row order. -/
def colNums (df : GeoDataFrame) (c : String) : List ℚ :=
  df.rows.filterMap (fun r =>
    match getCell r c with
    | .num (some q) => some q
    | _ => none)

/-- Minimum of a list of rationals; `none` on the empty list, as pandas
`Series.min` yields `NaN` there. -/
def listMin : List ℚ → Option ℚ
  | [] => none
  | q :: qs => some ((listMin qs).elim q (min q))

/-- Maximum of a list of rationals; `none` on the empty list. -/
def listMax : List ℚ → Option ℚ
  | [] => none
  | q :: qs => some ((listMax qs).elim q (max q))

/-- `gdf[cols]`: project onto the named columns, `KeyError` if one is
absent. -/
def selectColumns (cols : List String) (df : GeoDataFrame) : Except MapError GeoDataFrame :=
  match cols.find? (fun c => !(df.columns.contains c)) with
  | some c => .error (.keyError c)
  | none => .ok { columns := cols
                  rows := df.rows.map (fun r => cols.map (fun c => (c, getCell r c))) }

/-- A branca colormap, tracked symbolically: a named linear palette from
`cm.linear`, `.scale(vmin, vmax)`, `.to_step(data=..., quantiles=...)`
(bucket boundaries at those quantiles of the data) and `.to_step(n)`
(`n` equal buckets). -/
inductive ColorScale where
  | linear (paletteName : String)
  | scaled (base : ColorScale) (vmin vmax : Option ℚ)
  | toStepQuantiles (base : ColorScale) (data : List ℚ) (quantiles : List ℚ)
  | toStepN (base : ColorScale) (n : ℤ)
deriving DecidableEq, Repr

/-- The rendered folium map artifact: tile layers, the styled data layer,
tooltip, legend, layer control, title, optional save target. -/
structure MapSpec where
  location : ℚ × ℚ
  zoomStart : ℕ
  baseTiles : String
  waterTiles : String
  layerGdf : GeoDataFrame
  colormap : ColorScale
  datacolumn : String
  layerName : String
  tooltipFields : List String
  tooltipAliases : List String
  caption : String
  hasLayerControl : Bool
  title : String
  savedTo : Option String
deriving DecidableEq, Repr

/-- View an `Except` as a sum, to derive decidable equality. -/
def exceptToSum {ε α : Type} : Except ε α → ε ⊕ α
  | .error e => .inl e
  | .ok a => .inr a

instance {ε α : Type} [DecidableEq ε] [DecidableEq α] : DecidableEq (Except ε α) :=
  fun a b =>
    decidable_of_iff (exceptToSum a = exceptToSum b)
      (by cases a <;> cases b <;> simp [exceptToSum])

/-- The observable result of one call: the final state of the caller-owned
dataframe object (Python passes the object by reference) and the outcome
(`some` map when `show` is true, `none` otherwise, or an error). -/
structure CallResult where
  callerGdf : GeoDataFrame
  outcome : Except MapError (Option MapSpec)
deriving DecidableEq

/-- Everything `create_interactive_map` does after the in-place `dropna`:
rounding, domain computation, colormap construction, tooltip handling and
map assembly. `knownPalettes` is the set of attribute names the external
colormap module `branca.colormap.cm.linear` exposes; `getattr` on it
succeeds exactly for these names. Optional parameters are `Option`;
`isinstance(x, list)` and `isinstance(x, int)` are `Option.isSome`. -/
def mapOutcome
    (knownPalettes : List String)
    (cleaned : GeoDataFrame) (datacolumn : String)
    (colormap_name : String)
    (colormap_steps : Option ℤ)
    (output_path : Option String)
    (title : String)
    (legend_label : String)
    (quantiles : Option (List ℚ))
    (tooltip_columns : Option (List String))
    (tooltip_aliases : Option (List String))
    (showFig : Bool) : Except MapError (Option MapSpec) :=
    let gdf1 := roundDf cleaned
    let data_min := listMin (colNums gdf1 datacolumn)
    let data_max := listMax (colNums gdf1 datacolumn)
    if knownPalettes.contains colormap_name then
      let colormap0 : ColorScale := .scaled (.linear colormap_name) data_min data_max
      let colormap1 :=
        match quantiles with
        | some qs => ColorScale.toStepQuantiles colormap0 (colNums gdf1 datacolumn) qs
        | none => colormap0
      let colormap2 :=
        match colormap_steps with
        | some n => ColorScale.toStepN colormap1 n
        | none => colormap1
      let sel :=
        match tooltip_columns with
        | some tc => (selectColumns ("geometry" :: tc) gdf1).map (fun d => (d, tc))
        | none => (selectColumns ["geometry", datacolumn] gdf1).map (fun d => (d, [datacolumn]))
      match sel with
      | .error e => .error e
      | .ok (gdf2, fields) =>
        let aliases :=
          match tooltip_aliases with
          | some a => a
          | none => [legend_label]
        let m : MapSpec :=
          { location := ((52.8 : ℚ), (4.9 : ℚ))
            zoomStart := 10
            baseTiles := "nlmaps.luchtfoto"
            waterTiles := "nlmaps.water"
            layerGdf := gdf2
            colormap := colormap2
            datacolumn := datacolumn
            layerName := legend_label
            tooltipFields := fields
            tooltipAliases := aliases
            caption := legend_label
            hasLayerControl := true
            title := title
            savedTo := output_path }
        .ok (if showFig then some m else none)
    else
      .error (.attributeError colormap_name)

/-- `create_interactive_map` of `gis/interactive_map.py`: the in-place
`dropna` (caller-visible), then the rest of the pipeline on the local
rebinding. When `dropna` raises (missing column), the caller's object is
untouched; otherwise the caller is left holding the cleaned frame, and
the later `gdf = gdf.round(2)` rebinds only the local name. -/
def create_interactive_map
    (knownPalettes : List String)
    (gdf : GeoDataFrame) (datacolumn : String)
    (colormap_name : String)
    (colormap_steps : Option ℤ)
    (output_path : Option String)
    (title : String)
    (legend_label : String)
    (quantiles : Option (List ℚ))
    (tooltip_columns : Option (List String))
    (tooltip_aliases : Option (List String))
    (showFig : Bool) : CallResult :=
  match dropnaSubset datacolumn gdf with
  | .error e => { callerGdf := gdf, outcome := .error e }
  | .ok cleaned =>
    { callerGdf := cleaned
      outcome := mapOutcome knownPalettes cleaned datacolumn colormap_name
        colormap_steps output_path title legend_label quantiles
        tooltip_columns tooltip_aliases showFig }

/-- The color scale of the built map, when the call succeeded with
`show=True`. -/
def scaleOf (r : CallResult) : Option ColorScale :=
  match r.outcome with
  | .ok (some m) => some m.colormap
  | _ => none

/-- Tooltip fields and aliases of the built map, when the call succeeded
with `show=True`. -/
def tooltipOf (r : CallResult) : Option (List String × List String) :=
  match r.outcome with
  | .ok (some m) => some (m.tooltipFields, m.tooltipAliases)
  | _ => none

/-- Columns of the dataframe handed to the `folium.GeoJson` layer, when
the call succeeded with `show=True`. -/
def layerColumnsOf (r : CallResult) : Option (List String) :=
  match r.outcome with
  | .ok (some m) => some m.layerGdf.columns
  | _ => none

/-- Rows of the dataframe handed to the `folium.GeoJson` layer. -/
def layerRowsOf (r : CallResult) : Option (List Row) :=
  match r.outcome with
  | .ok (some m) => some m.layerGdf.rows
  | _ => none

/-- Did the call succeed (no exception)? -/
def isOkOutcome (r : CallResult) : Bool :=
  match r.outcome with
  | .ok _ => true
  | .error _ => false

/-- Did the call fail with a `ConfigurationError`? -/
def isConfigurationError (r : CallResult) : Bool :=
  match r.outcome with
  | .error (.configurationError _) => true
  | _ => false

/-- Did the call fail with an `EmptyDatasetError`? -/
def isEmptyDatasetError (r : CallResult) : Bool :=
  match r.outcome with
  | .error .emptyDatasetError => true
  | _ => false

/-! ## `threedi/geometry_functions.py` -/

/-- `line_geometries_to_coords`: each flat coordinate array
`[x1..xk, y1..yk]` with at least 4 entries is split at `int(size/2)` into
an x-half and a y-half, and `zip` of the halves gives the LineString
vertices; shorter arrays get the fixed dummy line. A LineString is
embedded as its vertex list. -/
def line_geometries_to_coords (lines : List (List ℚ)) : List (List (ℚ × ℚ)) :=
  lines.map (fun line =>
    let halves :=
      if 4 ≤ line.length then
        (line.take (line.length / 2), line.drop (line.length / 2))
      else
        ([0, 25000], [0, 25000])
    halves.1.zip halves.2)

/-! ## `logger.py` -/

/-- Default log format string of `logger.py`. -/
def LOGFORMAT : String := "%(asctime)s|%(levelname)-8s| %(name)s:%(lineno)-4d| %(message)s"

/-- Default date format for the console logger. -/
def DATEFMT_STREAM : String := "%H:%M:%S"

/-- One handler entry of the logging configuration dict. Field names
mirror the Python dict keys (`class` is `className`); a key the dict does
not set is `none`. -/
structure HandlerCfg where
  className : String
  level : Option String
  formatter : Option String
  stream : Option String
  rotateWhen : Option String
  backupCount : Option Nat
  filename : Option String
deriving DecidableEq, Repr

/-- One logger entry: the root logger carries a handler list, the
per-package entries added from `level_dict` set only a level. -/
structure LoggerCfg where
  level : String
  handlers : Option (List String)
deriving DecidableEq, Repr

/-- One formatter entry. -/
structure FormatterCfg where
  format : String
  datefmt : String
deriving DecidableEq, Repr

/-- The configuration dict returned by `get_logconfig_dict`. -/
structure LogConfigDict where
  version : Nat
  disable_existing_loggers : Bool
  loggers : List (String × LoggerCfg)
  handlers : List (String × HandlerCfg)
  formatters : List (String × FormatterCfg)
deriving DecidableEq, Repr

/-- Python dict assignment `d[k] = v` on an association list: replaces the
value in place when the key exists, appends at the end otherwise. -/
def dictSet {α : Type} (d : List (String × α)) (k : String) (v : α) :
    List (String × α) :=
  if d.any (fun kv => kv.1 == k) then
    d.map (fun kv => if kv.1 == k then (k, v) else kv)
  else
    d ++ [(k, v)]

/-- Python truthiness of an optional string (`None` and `""` are falsy). -/
def pyTruthy : Option String → Bool
  | none => false
  | some s => !(s == "")

/-- `get_logconfig_dict` of `logger.py`. `level_dict` is embedded already
well-typed (each value a list of package names), which discharges the
`TypeError` guard of the source statically. -/
def get_logconfig_dict (level_root : String)
    (level_dict : Option (List (String × List String)))
    (log_filepath : Option String) : LogConfigDict :=
  let base : LogConfigDict :=
    { version := 1
      disable_existing_loggers := false
      loggers :=
        [("", { level := level_root
                handlers := some ["debug_console_handler", "stderr"] })]
      handlers :=
        [ ("null",
           { className := "logging.NullHandler", level := none,
             formatter := none, stream := none, rotateWhen := none,
             backupCount := none, filename := none })
        , ("debug_console_handler",
           { className := "logging.StreamHandler", level := some "NOTSET",
             formatter := some "time_level_name",
             stream := some "ext://sys.stdout", rotateWhen := none,
             backupCount := none, filename := none })
        , ("stderr",
           { className := "logging.StreamHandler", level := some "ERROR",
             formatter := some "time_level_name",
             stream := some "ext://sys.stderr", rotateWhen := none,
             backupCount := none, filename := none }) ]
      formatters :=
        [("time_level_name", { format := LOGFORMAT, datefmt := DATEFMT_STREAM })] }
  let withLoggers :=
    match level_dict with
    | none => base
    | some ld =>
      { base with
          loggers := ld.foldl (fun acc p =>
            p.2.foldl (fun acc2 pkg =>
              dictSet acc2 pkg { level := p.1, handlers := none }) acc)
            base.loggers }
  if pyTruthy log_filepath then
    { withLoggers with
        handlers := dictSet withLoggers.handlers "info_rotating_file_handler"
          { className := "logging.handlers.TimedRotatingFileHandler",
            level := some "INFO", formatter := some "time_level_name",
            stream := none, rotateWhen := some "D", backupCount := some 7,
            filename := log_filepath } }
  else
    withLoggers

/-! ## Statement helpers -/

/-- The `[vmin, vmax]` pair of the innermost `.scale` node of a colormap,
looking through the `to_step` conversions. -/
def scaleBounds : ColorScale → Option (Option ℚ × Option ℚ)
  | .linear _ => none
  | .scaled _ vmin vmax => some (vmin, vmax)
  | .toStepQuantiles b _ _ => scaleBounds b
  | .toStepN b _ => scaleBounds b

/-- The column list handed to the layer renderer: `geometry` plus the
tooltip columns when given, else `geometry` and the data column. -/
def tooltipSelection (tooltip_columns : Option (List String)) (datacolumn : String) :
    List String :=
  match tooltip_columns with
  | some tc => "geometry" :: tc
  | none => ["geometry", datacolumn]

@[simp] theorem cleanedOf_columns (c : String) (df : GeoDataFrame) :
    (cleanedOf c df).columns = df.columns := rfl

@[simp] theorem roundDf_columns (df : GeoDataFrame) :
    (roundDf df).columns = df.columns := rfl

/-- A column list all of whose members occur in `cs` has no member
outside `cs`, so the `selectColumns` membership scan finds nothing. -/
theorem find?_not_contains_eq_none (cols cs : List String)
    (h : cols.all (fun c => cs.contains c) = true) :
    cols.find? (fun c => !(cs.contains c)) = none := by
  rw [List.find?_eq_none]
  intro x hx
  have hc : x ∈ cs := by simpa using List.all_eq_true.mp h x hx
  simp [hc]

/-- The full shape of a successful call with `show=True`: once `dropna`
succeeds, the palette resolves and every selected column exists, the call
returns the map whose layer frame holds the selected columns of the
rounded cleaned frame, whose colormap is scaled to the min/max of the
rounded cleaned column with the `to_step` conversions applied in order,
and whose tooltip carries the chosen fields and aliases. -/
theorem create_ok (kp : List String) (gdf : GeoDataFrame) (dc cn : String)
    (cs : Option ℤ) (op : Option String) (t ll : String)
    (q : Option (List ℚ)) (tc ta : Option (List String))
    (hm : gdf.columns.contains dc = true)
    (hp : kp.contains cn = true)
    (hsel : (tooltipSelection tc dc).all (fun c => gdf.columns.contains c) = true) :
    (create_interactive_map kp gdf dc cn cs op t ll q tc ta true).outcome
      = .ok (some
        { location := ((52.8 : ℚ), (4.9 : ℚ))
          zoomStart := 10
          baseTiles := "nlmaps.luchtfoto"
          waterTiles := "nlmaps.water"
          layerGdf :=
            { columns := tooltipSelection tc dc
              rows := (roundDf (cleanedOf dc gdf)).rows.map (fun r =>
                (tooltipSelection tc dc).map (fun c => (c, getCell r c))) }
          colormap :=
            (match cs with
             | some n =>
               ColorScale.toStepN
                 (match q with
                  | some qs =>
                    ColorScale.toStepQuantiles
                      (ColorScale.scaled (.linear cn)
                        (listMin (colNums (roundDf (cleanedOf dc gdf)) dc))
                        (listMax (colNums (roundDf (cleanedOf dc gdf)) dc)))
                      (colNums (roundDf (cleanedOf dc gdf)) dc) qs
                  | none =>
                    ColorScale.scaled (.linear cn)
                      (listMin (colNums (roundDf (cleanedOf dc gdf)) dc))
                      (listMax (colNums (roundDf (cleanedOf dc gdf)) dc))) n
             | none =>
               match q with
               | some qs =>
                 ColorScale.toStepQuantiles
                   (ColorScale.scaled (.linear cn)
                     (listMin (colNums (roundDf (cleanedOf dc gdf)) dc))
                     (listMax (colNums (roundDf (cleanedOf dc gdf)) dc)))
                   (colNums (roundDf (cleanedOf dc gdf)) dc) qs
               | none =>
                 ColorScale.scaled (.linear cn)
                   (listMin (colNums (roundDf (cleanedOf dc gdf)) dc))
                   (listMax (colNums (roundDf (cleanedOf dc gdf)) dc)))
          datacolumn := dc
          layerName := ll
          tooltipFields := tc.getD [dc]
          tooltipAliases := ta.getD [ll]
          caption := ll
          hasLayerControl := true
          title := t
          savedTo := op }) := by
  have hmm : dc ∈ gdf.columns := by simpa using hm
  have hpm : cn ∈ kp := by simpa using hp
  have hfind : List.find? (fun c => !decide (c ∈ gdf.columns))
      (tooltipSelection tc dc) = none := by
    rw [List.find?_eq_none]
    intro x hx
    have hxc : x ∈ gdf.columns := by simpa using List.all_eq_true.mp hsel x hx
    simp [hxc]
  cases tc with
  | none =>
    simp only [tooltipSelection] at hfind
    cases q <;> cases ta <;> cases cs <;>
      simp [create_interactive_map, dropnaSubset, mapOutcome, selectColumns,
            Except.map, hmm, hpm, hfind, tooltipSelection]
  | some tcl =>
    simp only [tooltipSelection] at hfind
    cases q <;> cases ta <;> cases cs <;>
      simp [create_interactive_map, dropnaSubset, mapOutcome, selectColumns,
            Except.map, hmm, hpm, hfind, tooltipSelection]

/-! ## Example frames used by witnesses and counterexamples -/

/-- Two polygons, the second with a missing value. -/
def gdfA : GeoDataFrame :=
  { columns := ["geometry", "value"]
    rows := [ [("geometry", .geom 0), ("value", .num (some 10))]
            , [("geometry", .geom 1), ("value", .num none)] ] }

/-- A polygon with the unrounded value `10.006`. -/
def gdfB : GeoDataFrame :=
  { columns := ["geometry", "value"]
    rows := [ [("geometry", .geom 0), ("value", .num (some (10006/1000)))] ] }

/-- A single polygon whose value is missing. -/
def gdfE : GeoDataFrame :=
  { columns := ["geometry", "value"]
    rows := [ [("geometry", .geom 0), ("value", .num none)] ] }

/-- A polygon with extra tooltip columns `id` and `label`. -/
def gdfT : GeoDataFrame :=
  { columns := ["geometry", "id", "label", "value"]
    rows := [ [("geometry", .geom 0), ("id", .str "a"), ("label", .str "b"),
               ("value", .num (some 1))] ] }

/-! ## Claims -/

/-- C1 (counterexample): the cleaning is caller-visible. On a collection
with one missing value, the caller-owned frame after the call is not the
frame the caller passed in: `dropna(..., inplace=True)` removed the row
from the caller's object. -/
theorem C1_counterexample :
    (create_interactive_map ["viridis"] gdfA "value" "viridis" none none
        "T" "L" none none none true).callerGdf ≠ gdfA := by
  decide

/-- C1 (amended): whenever the value column is present, the caller-owned
collection after the call equals the cleaned frame — the in-place `dropna`
is a caller-visible side effect, while the subsequent rounding and column
selection act only on fresh frames bound to the local name. -/
theorem C1_theorem (knownPalettes : List String) (gdf : GeoDataFrame)
    (datacolumn colormap_name : String) (colormap_steps : Option ℤ)
    (output_path : Option String) (title legend_label : String)
    (quantiles : Option (List ℚ)) (tooltip_columns tooltip_aliases : Option (List String))
    (showFig : Bool)
    (h : gdf.columns.contains datacolumn = true) :
    (create_interactive_map knownPalettes gdf datacolumn colormap_name
        colormap_steps output_path title legend_label quantiles
        tooltip_columns tooltip_aliases showFig).callerGdf
      = cleanedOf datacolumn gdf := by
  have hm : datacolumn ∈ gdf.columns := by simpa using h
  simp [create_interactive_map, dropnaSubset, hm]

/-- C1 witness: the amended statement at the concrete frame `gdfA`. -/
theorem C1_witness :
    gdfA.columns.contains "value" = true
    ∧ (create_interactive_map ["plasma"] gdfA "value" "plasma" none none
        "T" "L" none none none true).callerGdf = cleanedOf "value" gdfA :=
  ⟨by decide,
   C1_theorem ["plasma"] gdfA "value" "plasma" none none "T" "L" none none
     none true (by decide)⟩

/-- C4 (counterexample): an unknown palette name makes the call fail with
the reflective attribute-lookup failure (`AttributeError` from
`getattr(cm.linear, name)`), not with a validated `ConfigurationError`. -/
theorem C4_counterexample :
    (create_interactive_map ["viridis", "plasma", "inferno", "magma"] gdfA
        "value" "no_such_palette" none none "T" "L" none none none
        true).outcome
      = .error (.attributeError "no_such_palette")
    ∧ isConfigurationError (create_interactive_map
        ["viridis", "plasma", "inferno", "magma"] gdfA "value"
        "no_such_palette" none none "T" "L" none none none true) = false :=
  ⟨by decide, by decide⟩

/-- C4 (amended): for every palette name outside the names the colormap
module exposes, the call fails with `AttributeError` naming the palette
(the `KeyError` of `dropna` being the only earlier failure). -/
theorem C4_theorem (knownPalettes : List String) (gdf : GeoDataFrame)
    (datacolumn colormap_name : String) (colormap_steps : Option ℤ)
    (output_path : Option String) (title legend_label : String)
    (quantiles : Option (List ℚ)) (tooltip_columns tooltip_aliases : Option (List String))
    (showFig : Bool)
    (h : gdf.columns.contains datacolumn = true)
    (hn : knownPalettes.contains colormap_name = false) :
    (create_interactive_map knownPalettes gdf datacolumn colormap_name
        colormap_steps output_path title legend_label quantiles
        tooltip_columns tooltip_aliases showFig).outcome
      = .error (.attributeError colormap_name) := by
  have hm : datacolumn ∈ gdf.columns := by simpa using h
  have hnm : colormap_name ∉ knownPalettes := by simpa using hn
  simp [create_interactive_map, dropnaSubset, mapOutcome, hm, hnm]

/-- C4 witness: the amended statement at a concrete unknown name. -/
theorem C4_witness :
    gdfA.columns.contains "value" = true
    ∧ (["viridis"] : List String).contains "reds" = false
    ∧ (create_interactive_map ["viridis"] gdfA "value" "reds" none none
        "T" "L" none none none true).outcome
      = .error (.attributeError "reds") :=
  ⟨by decide, by decide,
   C4_theorem ["viridis"] gdfA "value" "reds" none none "T" "L" none none
     none true (by decide) (by decide)⟩

/-- C10: the logging configuration contains the
`info_rotating_file_handler` entry exactly when a truthy `log_filepath`
is supplied; with a falsy one the handlers are exactly `null`,
`debug_console_handler` and `stderr`. -/
theorem C10_theorem (level_root : String)
    (level_dict : Option (List (String × List String)))
    (log_filepath : Option String) :
    (((get_logconfig_dict level_root level_dict log_filepath).handlers.map
        Prod.fst).contains "info_rotating_file_handler" = pyTruthy log_filepath)
    ∧ (pyTruthy log_filepath = false →
        (get_logconfig_dict level_root level_dict log_filepath).handlers.map
            Prod.fst
          = ["null", "debug_console_handler", "stderr"]) := by
  cases log_filepath with
  | none =>
    cases level_dict <;> simp [get_logconfig_dict, pyTruthy, dictSet]
  | some s =>
    by_cases hs : s = "" <;>
      cases level_dict <;>
        simp [get_logconfig_dict, pyTruthy, dictSet, hs]

/-- C10 witness: the statement at a concrete falsy and truthy filepath. -/
theorem C10_witness :
    pyTruthy none = false
    ∧ ((get_logconfig_dict "WARNING" none none).handlers.map
        Prod.fst).contains "info_rotating_file_handler" = pyTruthy none
    ∧ (get_logconfig_dict "WARNING" none none).handlers.map Prod.fst
      = ["null", "debug_console_handler", "stderr"]
    ∧ ((get_logconfig_dict "WARNING" none (some "x.log")).handlers.map
        Prod.fst).contains "info_rotating_file_handler" = pyTruthy (some "x.log") := by
  have h1 := C10_theorem "WARNING" none none
  have h2 := C10_theorem "WARNING" none (some "x.log")
  exact ⟨by decide, h1.1, h1.2 (by decide), h2.1⟩

/-- The rounded cleaned value column of `gdfB` is `[10.01]`: rounding
changed the value `10.006` before the domain is computed. -/
theorem gdfB_colNums :
    colNums (roundDf (cleanedOf "value" gdfB)) "value" = [1001/100] := by
  simp [colNums, roundDf, cleanedOf, gdfB, getCell, isNA, roundCell,
        List.lookup]
  norm_num [round2, round_eq]

/-- The unrounded cleaned value column of `gdfB` is `[10.006]`. -/
theorem gdfB_colNums_unrounded :
    colNums (cleanedOf "value" gdfB) "value" = [10006/1000] := by
  simp [colNums, cleanedOf, gdfB, getCell, isNA, List.lookup]

/-- C2 (counterexample): the palette domain is computed from the rounded
column. On the value `10.006`, the scale built by the call has
`vmin = 10.01`, while the true minimum of the cleaned unrounded column is
`10.006`, so the claim that `data_min` equals the pre-rounding minimum is
false. -/
theorem C2_counterexample :
    scaleOf (create_interactive_map ["viridis"] gdfB "value" "viridis" none
        none "T" "L" none none none true)
      = some (.scaled (.linear "viridis") (some (1001/100)) (some (1001/100)))
    ∧ listMin (colNums (cleanedOf "value" gdfB) "value") = some (10006/1000)
    ∧ ((1001 : ℚ)/100) ≠ (10006 : ℚ)/1000 := by
  have h := create_ok ["viridis"] gdfB "value" "viridis" none none "T" "L"
    none none none (by decide) (by decide) (by decide)
  refine ⟨?_, ?_, by norm_num⟩
  · simp [scaleOf, h, gdfB_colNums, listMin, listMax]
    norm_num [round2, round_eq]
  · simp [gdfB_colNums_unrounded, listMin]

/-- C2 (amended): the `data_min`/`data_max` used to scale the continuous
palette equal the minimum and maximum of the cleaned value column AFTER
rounding to 2 decimals — the source rounds with `gdf.round(2)` before it
computes the domain. -/
theorem C2_theorem (knownPalettes : List String) (gdf : GeoDataFrame)
    (datacolumn colormap_name : String) (colormap_steps : Option ℤ)
    (output_path : Option String) (title legend_label : String)
    (quantiles : Option (List ℚ)) (tooltip_aliases : Option (List String))
    (hm : gdf.columns.contains datacolumn = true)
    (hp : knownPalettes.contains colormap_name = true)
    (hg : gdf.columns.contains "geometry" = true) :
    (scaleOf (create_interactive_map knownPalettes gdf datacolumn
        colormap_name colormap_steps output_path title legend_label
        quantiles none tooltip_aliases true)).bind scaleBounds
      = some (listMin (colNums (roundDf (cleanedOf datacolumn gdf)) datacolumn),
              listMax (colNums (roundDf (cleanedOf datacolumn gdf)) datacolumn)) := by
  have hsel : (tooltipSelection none datacolumn).all
      (fun c => gdf.columns.contains c) = true := by
    have hgm : "geometry" ∈ gdf.columns := by simpa using hg
    have hmm2 : datacolumn ∈ gdf.columns := by simpa using hm
    simp [tooltipSelection, hgm, hmm2]
  have h := create_ok knownPalettes gdf datacolumn colormap_name
    colormap_steps output_path title legend_label quantiles none
    tooltip_aliases hm hp hsel
  cases colormap_steps <;> cases quantiles <;>
    simp [scaleOf, scaleBounds, h]

/-- C2 witness: the amended statement at the concrete frame `gdfB`. -/
theorem C2_witness :
    gdfB.columns.contains "value" = true
    ∧ (["viridis"] : List String).contains "viridis" = true
    ∧ gdfB.columns.contains "geometry" = true
    ∧ (scaleOf (create_interactive_map ["viridis"] gdfB "value" "viridis"
        none none "T" "L" none none none true)).bind scaleBounds
      = some (listMin (colNums (roundDf (cleanedOf "value" gdfB)) "value"),
              listMax (colNums (roundDf (cleanedOf "value" gdfB)) "value")) :=
  ⟨by decide, by decide, by decide,
   C2_theorem ["viridis"] gdfB "value" "viridis" none none "T" "L" none
     none (by decide) (by decide) (by decide)⟩

/-- C3 (counterexample): a collection whose only record has a missing
value does not make the call fail — there is no `EmptyDatasetError`
anywhere; the call succeeds and the rendered data layer is empty. -/
theorem C3_counterexample :
    isEmptyDatasetError (create_interactive_map ["viridis"] gdfE "value"
        "viridis" none none "T" "L" none none none true) = false
    ∧ isOkOutcome (create_interactive_map ["viridis"] gdfE "value"
        "viridis" none none "T" "L" none none none true) = true
    ∧ (cleanedOf "value" gdfE).rows = [] :=
  ⟨by decide, by decide, by decide⟩

/-- C3 (amended): on a collection all of whose records have a missing
value column, the call performs no empty-set check: it succeeds, the data
layer it renders has no rows, and the palette is scaled to the undefined
(`NaN`/`none`) min and max of the empty column. -/
theorem C3_theorem (knownPalettes : List String) (gdf : GeoDataFrame)
    (datacolumn colormap_name : String) (colormap_steps : Option ℤ)
    (output_path : Option String) (title legend_label : String)
    (quantiles : Option (List ℚ)) (tooltip_aliases : Option (List String))
    (hm : gdf.columns.contains datacolumn = true)
    (hp : knownPalettes.contains colormap_name = true)
    (hg : gdf.columns.contains "geometry" = true)
    (hall : gdf.rows.all (fun r => isNA (getCell r datacolumn)) = true) :
    isOkOutcome (create_interactive_map knownPalettes gdf datacolumn
        colormap_name colormap_steps output_path title legend_label
        quantiles none tooltip_aliases true) = true
    ∧ layerRowsOf (create_interactive_map knownPalettes gdf datacolumn
        colormap_name colormap_steps output_path title legend_label
        quantiles none tooltip_aliases true) = some []
    ∧ (scaleOf (create_interactive_map knownPalettes gdf datacolumn
        colormap_name colormap_steps output_path title legend_label
        quantiles none tooltip_aliases true)).bind scaleBounds
      = some (none, none)
    ∧ isEmptyDatasetError (create_interactive_map knownPalettes gdf
        datacolumn colormap_name colormap_steps output_path title
        legend_label quantiles none tooltip_aliases true) = false := by
  have hsel : (tooltipSelection none datacolumn).all
      (fun c => gdf.columns.contains c) = true := by
    have hgm : "geometry" ∈ gdf.columns := by simpa using hg
    have hmm2 : datacolumn ∈ gdf.columns := by simpa using hm
    simp [tooltipSelection, hgm, hmm2]
  have hnil : (cleanedOf datacolumn gdf).rows = [] := by
    simp only [cleanedOf]
    rw [List.filter_eq_nil_iff]
    intro r hr
    simp [List.all_eq_true.mp hall r hr]
  have h := create_ok knownPalettes gdf datacolumn colormap_name
    colormap_steps output_path title legend_label quantiles none
    tooltip_aliases hm hp hsel
  refine ⟨?_, ?_, ?_, ?_⟩ <;>
    cases colormap_steps <;> cases quantiles <;>
      simp [isOkOutcome, layerRowsOf, scaleOf, scaleBounds,
            isEmptyDatasetError, h, roundDf, colNums, listMin, listMax, hnil]

/-- C3 witness: the amended statement at the concrete all-missing frame
`gdfE`. -/
theorem C3_witness :
    gdfE.columns.contains "value" = true
    ∧ (["plasma"] : List String).contains "plasma" = true
    ∧ gdfE.columns.contains "geometry" = true
    ∧ gdfE.rows.all (fun r => isNA (getCell r "value")) = true
    ∧ (isOkOutcome (create_interactive_map ["plasma"] gdfE "value" "plasma"
          none none "T" "L" none none none true) = true
       ∧ layerRowsOf (create_interactive_map ["plasma"] gdfE "value"
          "plasma" none none "T" "L" none none none true) = some []
       ∧ (scaleOf (create_interactive_map ["plasma"] gdfE "value" "plasma"
          none none "T" "L" none none none true)).bind scaleBounds
        = some (none, none)
       ∧ isEmptyDatasetError (create_interactive_map ["plasma"] gdfE
          "value" "plasma" none none "T" "L" none none none true) = false) :=
  ⟨by decide, by decide, by decide, by decide,
   C3_theorem ["plasma"] gdfE "value" "plasma" none none "T" "L" none none
     (by decide) (by decide) (by decide) (by decide)⟩

/-- C5 (counterexample): mismatched tooltip fields and aliases
(`["id","label"]` against `["ID"]`) do not raise a `ConfigurationError`;
the call succeeds and hands both lists verbatim to the tooltip. -/
theorem C5_counterexample :
    isConfigurationError (create_interactive_map ["viridis"] gdfT "value"
        "viridis" none none "T" "L" none (some ["id", "label"])
        (some ["ID"]) true) = false
    ∧ tooltipOf (create_interactive_map ["viridis"] gdfT "value" "viridis"
        none none "T" "L" none (some ["id", "label"]) (some ["ID"]) true)
      = some (["id", "label"], ["ID"]) :=
  ⟨by decide, by decide⟩

/-- C5 (amended): the call performs no length validation on the tooltip
configuration: whatever pair of `tooltip_columns` and `tooltip_aliases`
lists is supplied — matching in length or not — is passed verbatim to the
tooltip renderer, and no `ConfigurationError` is raised. -/
theorem C5_theorem (knownPalettes : List String) (gdf : GeoDataFrame)
    (datacolumn colormap_name : String) (colormap_steps : Option ℤ)
    (output_path : Option String) (title legend_label : String)
    (quantiles : Option (List ℚ)) (tcl al : List String)
    (hm : gdf.columns.contains datacolumn = true)
    (hp : knownPalettes.contains colormap_name = true)
    (hsel : (tooltipSelection (some tcl) datacolumn).all
        (fun c => gdf.columns.contains c) = true) :
    tooltipOf (create_interactive_map knownPalettes gdf datacolumn
        colormap_name colormap_steps output_path title legend_label
        quantiles (some tcl) (some al) true) = some (tcl, al)
    ∧ isConfigurationError (create_interactive_map knownPalettes gdf
        datacolumn colormap_name colormap_steps output_path title
        legend_label quantiles (some tcl) (some al) true) = false := by
  have h := create_ok knownPalettes gdf datacolumn colormap_name
    colormap_steps output_path title legend_label quantiles (some tcl)
    (some al) hm hp hsel
  exact ⟨by simp [tooltipOf, h], by simp [isConfigurationError, h]⟩

/-- C5 witness: the amended statement at the concrete mismatched pair. -/
theorem C5_witness :
    gdfT.columns.contains "value" = true
    ∧ (["viridis"] : List String).contains "viridis" = true
    ∧ (tooltipSelection (some ["id", "label"]) "value").all
        (fun c => gdfT.columns.contains c) = true
    ∧ (tooltipOf (create_interactive_map ["viridis"] gdfT "value" "viridis"
          none none "T" "Lbl" none (some ["id", "label"]) (some ["ID"])
          true) = some (["id", "label"], ["ID"])
       ∧ isConfigurationError (create_interactive_map ["viridis"] gdfT
          "value" "viridis" none none "T" "Lbl" none
          (some ["id", "label"]) (some ["ID"]) true) = false) :=
  ⟨by decide, by decide, by decide,
   C5_theorem ["viridis"] gdfT "value" "viridis" none none "T" "Lbl" none
     ["id", "label"] ["ID"] (by decide) (by decide) (by decide)⟩

/-- C6 (counterexample): with two tooltip fields and no aliases supplied,
the rendered aliases are `[legend_label]` (here `["Testlabels"]`), not the
field list `["id","label"]` the claim predicts for the more-than-one-field
case. -/
theorem C6_counterexample :
    tooltipOf (create_interactive_map ["viridis"] gdfT "value" "viridis"
        none none "T" "Testlabels" none (some ["id", "label"]) none true)
      = some (["id", "label"], ["Testlabels"])
    ∧ (["Testlabels"] : List String) ≠ ["id", "label"] :=
  ⟨by decide, by decide⟩

/-- C6 (amended): when `tooltip_aliases` is not supplied the aliases are
always the one-element list `[legend_label]`, regardless of how many
tooltip fields are implied — there is no fallback to `tooltip_fields`
verbatim. -/
theorem C6_theorem (knownPalettes : List String) (gdf : GeoDataFrame)
    (datacolumn colormap_name : String) (colormap_steps : Option ℤ)
    (output_path : Option String) (title legend_label : String)
    (quantiles : Option (List ℚ)) (tooltip_columns : Option (List String))
    (hm : gdf.columns.contains datacolumn = true)
    (hp : knownPalettes.contains colormap_name = true)
    (hsel : (tooltipSelection tooltip_columns datacolumn).all
        (fun c => gdf.columns.contains c) = true) :
    tooltipOf (create_interactive_map knownPalettes gdf datacolumn
        colormap_name colormap_steps output_path title legend_label
        quantiles tooltip_columns none true)
      = some (tooltip_columns.getD [datacolumn], [legend_label]) := by
  have h := create_ok knownPalettes gdf datacolumn colormap_name
    colormap_steps output_path title legend_label quantiles
    tooltip_columns none hm hp hsel
  simp [tooltipOf, h]

/-- C6 witness: the amended statement with two fields and no aliases. -/
theorem C6_witness :
    gdfT.columns.contains "value" = true
    ∧ (["viridis"] : List String).contains "viridis" = true
    ∧ (tooltipSelection (some ["id", "label"]) "value").all
        (fun c => gdfT.columns.contains c) = true
    ∧ tooltipOf (create_interactive_map ["viridis"] gdfT "value" "viridis"
        none none "T" "Testlabels" none (some ["id", "label"]) none true)
      = some ((some ["id", "label"]).getD ["value"], ["Testlabels"]) :=
  ⟨by decide, by decide, by decide,
   C6_theorem ["viridis"] gdfT "value" "viridis" none none "T"
     "Testlabels" none (some ["id", "label"]) (by decide) (by decide)
     (by decide)⟩

/-- C7 (counterexample): with both `quantiles = [0, 1/2, 1]` and
`colormap_steps = 5` supplied, the built scale is the step conversion
applied ON TOP of the quantile conversion — both branches ran, so the
scale is not the pure quantile-stepped scale the mutually-exclusive
reading predicts. -/
theorem C7_counterexample :
    scaleOf (create_interactive_map ["viridis"] gdfB "value" "viridis"
        (some 5) none "T" "L" (some [0, 1/2, 1]) none none true)
      = some (.toStepN (.toStepQuantiles (.scaled (.linear "viridis")
          (some (1001/100)) (some (1001/100))) [1001/100] [0, 1/2, 1]) 5)
    ∧ (ColorScale.toStepN (.toStepQuantiles (.scaled (.linear "viridis")
          (some (1001/100)) (some (1001/100))) [1001/100] [0, 1/2, 1]) 5)
      ≠ .toStepQuantiles (.scaled (.linear "viridis") (some (1001/100))
          (some (1001/100))) [1001/100] [0, 1/2, 1] := by
  have h := create_ok ["viridis"] gdfB "value" "viridis" (some 5) none "T"
    "L" (some [0, 1/2, 1]) none none (by decide) (by decide) (by decide)
  refine ⟨?_, by decide⟩
  simp only [scaleOf, h]
  simp [gdfB_colNums, listMin, listMax]
  norm_num [round2, round_eq]

/-- C7 (amended): the two refinements are applied sequentially, not as
mutually exclusive branches: the continuous palette is scaled to the
domain; if quantile breakpoints are given it is converted to a stepped
scale whose boundaries are at those quantiles of the cleaned (rounded)
data; then, independently, if `step_count` is given the result is further
converted to an evenly-partitioned stepped scale. The scale stays
continuous only when neither is supplied. -/
theorem C7_theorem (knownPalettes : List String) (gdf : GeoDataFrame)
    (datacolumn colormap_name : String) (colormap_steps : Option ℤ)
    (output_path : Option String) (title legend_label : String)
    (quantiles : Option (List ℚ)) (tooltip_aliases : Option (List String))
    (hm : gdf.columns.contains datacolumn = true)
    (hp : knownPalettes.contains colormap_name = true)
    (hg : gdf.columns.contains "geometry" = true) :
    scaleOf (create_interactive_map knownPalettes gdf datacolumn
        colormap_name colormap_steps output_path title legend_label
        quantiles none tooltip_aliases true)
      = some
        (match colormap_steps, quantiles with
         | some n, some qs =>
           ColorScale.toStepN
             (ColorScale.toStepQuantiles
               (ColorScale.scaled (.linear colormap_name)
                 (listMin (colNums (roundDf (cleanedOf datacolumn gdf)) datacolumn))
                 (listMax (colNums (roundDf (cleanedOf datacolumn gdf)) datacolumn)))
               (colNums (roundDf (cleanedOf datacolumn gdf)) datacolumn) qs) n
         | some n, none =>
           ColorScale.toStepN
             (ColorScale.scaled (.linear colormap_name)
               (listMin (colNums (roundDf (cleanedOf datacolumn gdf)) datacolumn))
               (listMax (colNums (roundDf (cleanedOf datacolumn gdf)) datacolumn))) n
         | none, some qs =>
           ColorScale.toStepQuantiles
             (ColorScale.scaled (.linear colormap_name)
               (listMin (colNums (roundDf (cleanedOf datacolumn gdf)) datacolumn))
               (listMax (colNums (roundDf (cleanedOf datacolumn gdf)) datacolumn)))
             (colNums (roundDf (cleanedOf datacolumn gdf)) datacolumn) qs
         | none, none =>
           ColorScale.scaled (.linear colormap_name)
             (listMin (colNums (roundDf (cleanedOf datacolumn gdf)) datacolumn))
             (listMax (colNums (roundDf (cleanedOf datacolumn gdf)) datacolumn))) := by
  have hsel : (tooltipSelection none datacolumn).all
      (fun c => gdf.columns.contains c) = true := by
    have hgm : "geometry" ∈ gdf.columns := by simpa using hg
    have hmm2 : datacolumn ∈ gdf.columns := by simpa using hm
    simp [tooltipSelection, hgm, hmm2]
  have h := create_ok knownPalettes gdf datacolumn colormap_name
    colormap_steps output_path title legend_label quantiles none
    tooltip_aliases hm hp hsel
  cases colormap_steps <;> cases quantiles <;> simp [scaleOf, h]

/-- C7 witness: the amended statement with both refinements supplied. -/
theorem C7_witness :
    gdfB.columns.contains "value" = true
    ∧ (["viridis"] : List String).contains "viridis" = true
    ∧ gdfB.columns.contains "geometry" = true
    ∧ scaleOf (create_interactive_map ["viridis"] gdfB "value" "viridis"
        (some 5) none "T" "L" (some [0, 1/2, 1]) none none true)
      = some (ColorScale.toStepN
          (ColorScale.toStepQuantiles
            (ColorScale.scaled (.linear "viridis")
              (listMin (colNums (roundDf (cleanedOf "value" gdfB)) "value"))
              (listMax (colNums (roundDf (cleanedOf "value" gdfB)) "value")))
            (colNums (roundDf (cleanedOf "value" gdfB)) "value")
            [0, 1/2, 1]) 5) :=
  ⟨by decide, by decide, by decide,
   C7_theorem ["viridis"] gdfB "value" "viridis" (some 5) none "T" "L"
     (some [0, 1/2, 1]) none (by decide) (by decide) (by decide)⟩

/-- C8: the feature subset handed to the layer renderer is exactly
`geometry` plus the tooltip columns when those are supplied, and exactly
`geometry` plus the value column otherwise; in the latter case the single
tooltip field is the value column. -/
theorem C8_theorem (knownPalettes : List String) (gdf : GeoDataFrame)
    (datacolumn colormap_name : String) (colormap_steps : Option ℤ)
    (output_path : Option String) (title legend_label : String)
    (quantiles : Option (List ℚ)) (tooltip_columns tooltip_aliases : Option (List String))
    (hm : gdf.columns.contains datacolumn = true)
    (hp : knownPalettes.contains colormap_name = true)
    (hsel : (tooltipSelection tooltip_columns datacolumn).all
        (fun c => gdf.columns.contains c) = true) :
    layerColumnsOf (create_interactive_map knownPalettes gdf datacolumn
        colormap_name colormap_steps output_path title legend_label
        quantiles tooltip_columns tooltip_aliases true)
      = some (tooltipSelection tooltip_columns datacolumn)
    ∧ (tooltipOf (create_interactive_map knownPalettes gdf datacolumn
        colormap_name colormap_steps output_path title legend_label
        quantiles tooltip_columns tooltip_aliases true)).map Prod.fst
      = some (tooltip_columns.getD [datacolumn]) := by
  have h := create_ok knownPalettes gdf datacolumn colormap_name
    colormap_steps output_path title legend_label quantiles
    tooltip_columns tooltip_aliases hm hp hsel
  exact ⟨by simp [layerColumnsOf, h], by simp [tooltipOf, h]⟩

/-- C8 witness: the statement at concrete frames, once with tooltip
columns supplied and once without. -/
theorem C8_witness :
    gdfT.columns.contains "value" = true
    ∧ (["viridis"] : List String).contains "viridis" = true
    ∧ (tooltipSelection (some ["id", "label"]) "value").all
        (fun c => gdfT.columns.contains c) = true
    ∧ (layerColumnsOf (create_interactive_map ["viridis"] gdfT "value"
          "viridis" none none "T" "L" none (some ["id", "label"]) none
          true) = some (tooltipSelection (some ["id", "label"]) "value")
       ∧ (tooltipOf (create_interactive_map ["viridis"] gdfT "value"
          "viridis" none none "T" "L" none (some ["id", "label"]) none
          true)).map Prod.fst = some ((some ["id", "label"]).getD ["value"]))
    ∧ (tooltipSelection none "value").all
        (fun c => gdfA.columns.contains c) = true
    ∧ (layerColumnsOf (create_interactive_map ["viridis"] gdfA "value"
          "viridis" none none "T" "L" none none none true)
        = some (tooltipSelection none "value")
       ∧ (tooltipOf (create_interactive_map ["viridis"] gdfA "value"
          "viridis" none none "T" "L" none none none true)).map Prod.fst
        = some ((none : Option (List String)).getD ["value"])) :=
  ⟨by decide, by decide, by decide,
   C8_theorem ["viridis"] gdfT "value" "viridis" none none "T" "L" none
     (some ["id", "label"]) none (by decide) (by decide) (by decide),
   by decide,
   C8_theorem ["viridis"] gdfA "value" "viridis" none none "T" "L" none
     none none (by decide) (by decide) (by decide)⟩

/-- C9: `line_geometries_to_coords` yields one LineString per input
element, in input order; an element with at least 4 coordinate values
yields the zip of the first half of the flat array (the x-coordinates, in
order, `⌊n/2⌋` of them) with the second half (the y-coordinates, in
order), so its `j`-th vertex is `(line[j], line[⌊n/2⌋ + j])`; a shorter
element yields the fixed dummy line from `(0, 0)` to `(25000, 25000)`. -/
theorem C9_theorem (lines : List (List ℚ)) :
    (line_geometries_to_coords lines).length = lines.length
    ∧ ∀ i (hi : i < lines.length) (ho : i < (line_geometries_to_coords lines).length),
        (4 ≤ (lines.get ⟨i, hi⟩).length →
            ((line_geometries_to_coords lines).get ⟨i, ho⟩).length
              = (lines.get ⟨i, hi⟩).length / 2)
        ∧ (¬ 4 ≤ (lines.get ⟨i, hi⟩).length →
            (line_geometries_to_coords lines).get ⟨i, ho⟩
              = [((0 : ℚ), (0 : ℚ)), ((25000 : ℚ), (25000 : ℚ))])
        ∧ ∀ j (hjo : j < ((line_geometries_to_coords lines).get ⟨i, ho⟩).length),
            4 ≤ (lines.get ⟨i, hi⟩).length →
            ∀ (hx : j < (lines.get ⟨i, hi⟩).length)
              (hy : (lines.get ⟨i, hi⟩).length / 2 + j < (lines.get ⟨i, hi⟩).length),
            ((line_geometries_to_coords lines).get ⟨i, ho⟩).get ⟨j, hjo⟩
              = ((lines.get ⟨i, hi⟩).get ⟨j, hx⟩,
                 (lines.get ⟨i, hi⟩).get
                   ⟨(lines.get ⟨i, hi⟩).length / 2 + j, hy⟩) := by
  refine ⟨by simp [line_geometries_to_coords], ?_⟩
  intro i hi ho
  refine ⟨?_, ?_, ?_⟩
  · intro h4
    simp only [List.get_eq_getElem] at h4
    simp [line_geometries_to_coords, List.get_eq_getElem, List.getElem_map, h4]
    omega
  · intro h4
    simp only [List.get_eq_getElem] at h4
    simp [line_geometries_to_coords, List.get_eq_getElem, List.getElem_map, h4]
  · intro j hjo h4 hx hy
    simp only [List.get_eq_getElem] at h4
    simp [line_geometries_to_coords, List.get_eq_getElem, List.getElem_map, h4,
          List.getElem_zip, List.getElem_take, List.getElem_drop]

/-- C9 witness: the statement at a concrete pair of lines — a 6-value
line whose second vertex pairs `line[1]` with `line[3 + 1]`, and a
2-value line that yields the dummy LineString. -/
theorem C9_witness :
    (line_geometries_to_coords [[(1 : ℚ), 2, 3, 10, 20, 30], [5, 6]]).length
      = ([[(1 : ℚ), 2, 3, 10, 20, 30], [5, 6]] : List (List ℚ)).length
    ∧ ¬ 4 ≤ (([[(1 : ℚ), 2, 3, 10, 20, 30], [5, 6]] : List (List ℚ)).get
        ⟨1, by decide⟩).length
    ∧ (line_geometries_to_coords [[(1 : ℚ), 2, 3, 10, 20, 30], [5, 6]]).get
        ⟨1, by decide⟩ = [((0 : ℚ), (0 : ℚ)), ((25000 : ℚ), (25000 : ℚ))]
    ∧ 4 ≤ (([[(1 : ℚ), 2, 3, 10, 20, 30], [5, 6]] : List (List ℚ)).get
        ⟨0, by decide⟩).length
    ∧ ((line_geometries_to_coords [[(1 : ℚ), 2, 3, 10, 20, 30], [5, 6]]).get
        ⟨0, by decide⟩).get ⟨1, by decide⟩
      = ((([[(1 : ℚ), 2, 3, 10, 20, 30], [5, 6]] : List (List ℚ)).get
            ⟨0, by decide⟩).get ⟨1, by decide⟩,
         (([[(1 : ℚ), 2, 3, 10, 20, 30], [5, 6]] : List (List ℚ)).get
            ⟨0, by decide⟩).get
           ⟨(([[(1 : ℚ), 2, 3, 10, 20, 30], [5, 6]] : List (List ℚ)).get
               ⟨0, by decide⟩).length / 2 + 1, by decide⟩) :=
  ⟨(C9_theorem [[(1 : ℚ), 2, 3, 10, 20, 30], [5, 6]]).1,
   by decide,
   ((C9_theorem [[(1 : ℚ), 2, 3, 10, 20, 30], [5, 6]]).2 1 (by decide)
     (by decide)).2.1 (by decide),
   by decide,
   ((C9_theorem [[(1 : ℚ), 2, 3, 10, 20, 30], [5, 6]]).2 0 (by decide)
     (by decide)).2.2 1 (by decide) (by decide) (by decide) (by decide)⟩

end HHNK
